import Mathlib

/-!
Verification development for the record/replay memoization engine in
`jhack/utils/event_recorder/recorder.py`.

The Python source is shallowly embedded below:

* `PyValue` models the Python values that flow through the engine
  (arguments, keyword arguments and return values of memoized calls).
  A pickle blob (`bytes` produced by `pickle.dumps(v)`) is modelled
  abstractly by the constructor `PyValue.pickled v`; a readable text
  stream (`io.StringIO` / file handle) is modelled by its contents plus
  a consumed flag (reading a stream yields its contents and marks it
  consumed, mirroring the read position reaching EOF).
* `Serialized` models the serialized text produced by `_dump`:
  `jsonTxt v` stands for the text `json.dumps(v)` (with tuples already
  normalized to lists, exactly as the textual form makes them
  indistinguishable), and `b64pickle v` stands for
  `base64.b64encode(pickle.dumps(v))`.  Equality of `Serialized` values
  models equality of the produced strings.
* Exceptions are modelled with `Except PyErr`; each Python `raise` site
  maps to a distinct `PyErr` constructor.
* The mutable `Memo` / `Scene` / `Data` objects are modelled by explicit
  state passing: each operation returns the updated value.
-/

/-- Python execution modes of the engine (`MemoModes`). -/
inductive MemoModes where
  | record
  | replay
  deriving DecidableEq, Repr

/-- Caching disciplines (`_CachingPolicy`). -/
inductive Policy where
  | strict
  | loose
  deriving DecidableEq, Repr

/-- The four supported serializer tags (`SUPPORTED_SERIALIZERS_LIST`):
`"pickle"`, `"json"`, `"io"` (named `ioTag` here) and `"PebblePush"`. -/
inductive Method where
  | pickle
  | json
  | ioTag
  | pebblePush
  deriving DecidableEq, Repr

/-- `Memo.cursor`: an integer position for strict memos, or the string
sentinel `"n/a"` for loose memos. -/
inductive Cursor where
  | idx (n : Nat)
  | na
  deriving DecidableEq, Repr

/-- Python exceptions raised (or propagated) by the embedded code.  The
`other` constructor stands for an arbitrary exception raised by the
wrapped backend function itself. -/
inductive PyErr where
  | runtimeError (msg : String)
  | valueError (msg : String)
  | typeError (msg : String)
  | keyError
  | indexError
  | attributeError
  | unpicklingError
  | other (n : Nat)
  deriving DecidableEq, Repr

/-- Python values handled by the serialization subsystem. -/
inductive PyValue where
  | pynone
  | pybool (b : Bool)
  | pyint (n : Int)
  | pystr (s : String)
  | pybytes (bs : List Nat)
  | pickled (v : PyValue)
  | pylist (vs : List PyValue)
  | pytuple (vs : List PyValue)
  | pydict (kvs : List (String × PyValue))
  | stream (contents : String) (consumed : Bool)
  deriving Repr

mutual

/-- Structural equality on `PyValue`, modelling Python `==` (streams
compare by identity-like state here; the engine never compares stream
objects with `==`). -/
def pvBeq : PyValue → PyValue → Bool
  | .pynone, .pynone => true
  | .pybool a, .pybool b => a = b
  | .pyint a, .pyint b => a = b
  | .pystr a, .pystr b => a = b
  | .pybytes a, .pybytes b => a = b
  | .pickled a, .pickled b => pvBeq a b
  | .pylist a, .pylist b => pvlBeq a b
  | .pytuple a, .pytuple b => pvlBeq a b
  | .pydict a, .pydict b => pvkvBeq a b
  | .stream c1 k1, .stream c2 k2 => c1 = c2 && k1 = k2
  | _, _ => false

/-- Elementwise equality of `PyValue` lists. -/
def pvlBeq : List PyValue → List PyValue → Bool
  | [], [] => true
  | a :: as, b :: bs => pvBeq a b && pvlBeq as bs
  | _, _ => false

/-- Elementwise equality of string-keyed association lists. -/
def pvkvBeq : List (String × PyValue) → List (String × PyValue) → Bool
  | [], [] => true
  | (k1, v1) :: as, (k2, v2) :: bs => k1 = k2 && pvBeq v1 v2 && pvkvBeq as bs
  | _, _ => false

end

/-- Python truthiness (`if not output_:`): `None`, `False`, `0`, empty
strings, empty byte strings and empty containers are falsy; streams and
pickle blobs are always truthy. -/
def pyFalsy : PyValue → Bool
  | .pynone => true
  | .pybool b => !b
  | .pyint n => n = 0
  | .pystr s => s.isEmpty
  | .pybytes bs => bs.isEmpty
  | .pickled _ => false
  | .pylist vs => vs.isEmpty
  | .pytuple vs => vs.isEmpty
  | .pydict kvs => kvs.isEmpty
  | .stream _ _ => true = false

/-- `obj.read()` when `obj` has a `read` method: returns the text read
plus the object afterwards (a fresh stream yields its contents and
becomes consumed; a consumed stream yields the empty string).  `none`
models the absence of a `read` attribute. -/
def pyRead : PyValue → Option (String × PyValue)
  | .stream c false => some (c, .stream c true)
  | .stream c true => some ("", .stream c true)
  | _ => none

mutual

/-- Values accepted by `json.dumps`: `None`, booleans, numbers, strings,
lists, tuples and string-keyed dicts of such values.  Byte strings,
pickle blobs and streams raise `TypeError`. -/
def jsonDumpable : PyValue → Bool
  | .pynone => true
  | .pybool _ => true
  | .pyint _ => true
  | .pystr _ => true
  | .pybytes _ => false
  | .pickled _ => false
  | .pylist vs => jsonDumpableL vs
  | .pytuple vs => jsonDumpableL vs
  | .pydict kvs => jsonDumpableKV kvs
  | .stream _ _ => false

/-- All elements of a list are `jsonDumpable`. -/
def jsonDumpableL : List PyValue → Bool
  | [] => true
  | v :: vs => jsonDumpable v && jsonDumpableL vs

/-- All values of an association list are `jsonDumpable`. -/
def jsonDumpableKV : List (String × PyValue) → Bool
  | [] => true
  | (_, v) :: kvs => jsonDumpable v && jsonDumpableKV kvs

end

mutual

/-- `json.dumps` writes tuples as arrays, so `json.loads` gives lists
back: the textual form of a value has all tuples normalized to lists. -/
def jsonNorm : PyValue → PyValue
  | .pylist vs => .pylist (jsonNormL vs)
  | .pytuple vs => .pylist (jsonNormL vs)
  | .pydict kvs => .pydict (jsonNormKV kvs)
  | v => v

/-- `jsonNorm` on every element of a list. -/
def jsonNormL : List PyValue → List PyValue
  | [] => []
  | v :: vs => jsonNorm v :: jsonNormL vs

/-- `jsonNorm` on every value of an association list. -/
def jsonNormKV : List (String × PyValue) → List (String × PyValue)
  | [] => []
  | (k, v) :: kvs => (k, jsonNorm v) :: jsonNormKV kvs

end

mutual

/-- Values containing no tuple: exactly those on which `jsonNorm` is the
identity. -/
def tupleFree : PyValue → Bool
  | .pytuple _ => false
  | .pylist vs => tupleFreeL vs
  | .pydict kvs => tupleFreeKV kvs
  | _ => true

/-- All elements of a list are `tupleFree`. -/
def tupleFreeL : List PyValue → Bool
  | [] => true
  | v :: vs => tupleFree v && tupleFreeL vs

/-- All values of an association list are `tupleFree`. -/
def tupleFreeKV : List (String × PyValue) → Bool
  | [] => true
  | (_, v) :: kvs => tupleFree v && tupleFreeKV kvs

end

mutual

/-- Values accepted by `pickle.dumps`: everything except open streams
(`TypeError: cannot pickle` a stream object). -/
def pickleable : PyValue → Bool
  | .stream _ _ => false
  | .pickled v => pickleable v
  | .pylist vs => pickleableL vs
  | .pytuple vs => pickleableL vs
  | .pydict kvs => pickleableKV kvs
  | _ => true

/-- All elements of a list are `pickleable`. -/
def pickleableL : List PyValue → Bool
  | [] => true
  | v :: vs => pickleable v && pickleableL vs

/-- All values of an association list are `pickleable`. -/
def pickleableKV : List (String × PyValue) → Bool
  | [] => true
  | (_, v) :: kvs => pickleable v && pickleableKV kvs

end

/-- The serialized text persisted in a memo: either the output of
`json.dumps` (tuples normalized) or the base64 of `pickle.dumps`.
Equality of `Serialized` terms models equality of the texts. -/
inductive Serialized where
  | jsonTxt (v : PyValue)
  | b64pickle (v : PyValue)
  deriving Repr

/-- String comparison of two serialized texts (Python `==` / `!=` on the
stored strings). -/
def serBeq : Serialized → Serialized → Bool
  | .jsonTxt a, .jsonTxt b => pvBeq a b
  | .b64pickle a, .b64pickle b => pvBeq a b
  | _, _ => false

example : pvBeq (.pylist [.pyint 3]) (.pylist [.pyint 3]) = true := by rfl
example : pvBeq (.pylist [.pyint 3]) (.pylist [.pyint 4]) = false := by rfl
example : jsonDumpable (.pytuple [.pylist [], .pydict []]) = true := by rfl
example : jsonNorm (.pytuple [.pylist [], .pydict []]) =
    .pylist [.pylist [], .pydict []] := by rfl

/-- The deserializer `_load(obj, method)` of `memo.wrapper` (the
logging at its top is observability only and is not modelled):

* `pickle`: `pickle.loads(base64.b64decode(obj))` — succeeds exactly on
  a base64 pickle payload and returns the pickled value;
* `json`: `json.loads(obj)` — succeeds exactly on a `json.dumps` text;
* `io`: unpickles the payload, then wraps it in a fresh
  `io.StringIO(raw)` (which needs `raw` to be text);
* any other method (in particular `"PebblePush"`) falls through to
  `raise ValueError("Invalid method: ...")`. -/
def memoLoad (obj : Serialized) (method : Method) : Except PyErr PyValue :=
  match method with
  | .pickle =>
    match obj with
    | .b64pickle v => .ok v
    | .jsonTxt _ => .error .unpicklingError
  | .json =>
    match obj with
    | .jsonTxt v => .ok v
    | .b64pickle _ => .error (.valueError "not a json document")
  | .ioTag =>
    match obj with
    | .b64pickle (.pystr raw) => .ok (.stream raw false)
    | .b64pickle _ => .error (.typeError "StringIO argument must be str")
    | .jsonTxt _ => .error .unpicklingError
  | .pebblePush => .error (.valueError "Invalid method: PebblePush")

/-- Consuming the stream source inside a `PebblePush` payload: the
in-place effect of `source.read()` on the containing object. -/
def consumeStream : PyValue → PyValue
  | .stream c _ => .stream c true
  | v => v

/-- The `pickle` branch of `_dump`:
`base64.b64encode(pickle.dumps(obj)).decode("utf-8")` (raising
`TypeError` on unpicklable objects).  The `PebblePush` branch re-enters
`_dump` with method `"pickle"`; that inner call is this function. -/
def pickleDump (obj : PyValue) : Except PyErr Serialized :=
  if pickleable obj then .ok (.b64pickle obj)
  else .error (.typeError "cannot pickle object")

/-- The serializer `_dump(obj, method, output_)` of `memo.wrapper`.
Returns the serialized text together with the state of `obj` after the
call (reads performed by `io` and by the `PebblePush` stream branch
consume the stream in place; every other branch leaves `obj` as is).

* `pickle`: `base64.b64encode(pickle.dumps(obj))`;
* `json`: `json.dumps(obj)`;
* `PebblePush`: unpacks `obj` as `((path, source), kwargs)`; a
  `bytes`/`str` source is replaced by `pickle.dumps(source)` and the
  result dumped with `pickle`; a stream source requires `output_` — if
  it is missing (falsy), record mode raises `ValueError`, replay mode
  reads the source itself — and dumps the substituted pair with
  `pickle`;
* `io`: requires a `.read` method, then dumps `obj.read()` with
  pickle + base64. -/
def memoDump (mode : MemoModes) (obj : PyValue) (method : Method)
    (output? : Option PyValue) : Except PyErr (Serialized × PyValue) :=
  match method with
  | .pickle => (pickleDump obj).map fun s => (s, obj)
  | .json =>
    if jsonDumpable obj then .ok (.jsonTxt (jsonNorm obj), obj)
    else .error (.typeError "Object not serializable")
  | .pebblePush =>
    match obj with
    | .pytuple [.pytuple [path, source], kwargs] =>
      match source with
      | .pystr s =>
        (pickleDump (.pytuple [.pytuple [path, .pickled (.pystr s)], kwargs])).map
          fun r => (r, obj)
      | .pybytes b =>
        (pickleDump (.pytuple [.pytuple [path, .pickled (.pybytes b)], kwargs])).map
          fun r => (r, obj)
      | _ =>
        let out0 := (output?).getD .pynone
        if pyFalsy out0 then
          if mode = .record then
            .error (.valueError "we serialize AnyIO by just caching the contents. Output required.")
          else
            match pyRead source with
            | none => .error (.runtimeError "Cannot read source; unable to compare to cache")
            | some (contents, _) =>
              (pickleDump (.pytuple [.pytuple [path, .pystr contents], kwargs])).map
                fun r => (r, .pytuple [.pytuple [path, consumeStream source], kwargs])
        else
          (pickleDump (.pytuple [.pytuple [path, out0], kwargs])).map
            fun r => (r, obj)
    | _ => .error (.typeError "cannot unpack PebblePush payload")
  | .ioTag =>
    match pyRead obj with
    | none => .error (.typeError "you can only serialize with io stuff that has a .read method.")
    | some (contents, obj') => .ok (.b64pickle (.pystr contents), obj')

/-- Association-list lookup modelling Python `dict.get` /
`dict.__getitem__` (string keys). -/
def assocLookup (l : List (String × α)) (k : String) : Option α :=
  match l with
  | [] => none
  | (k', v) :: t => if k' = k then some v else assocLookup t k

/-- Association-list store modelling Python `dict.__setitem__`: an
existing key keeps its position and gets the new value, a new key is
appended (insertion order). -/
def assocInsert (l : List (String × α)) (k : String) (v : α) :
    List (String × α) :=
  match l with
  | [] => [(k, v)]
  | (k', v') :: t => if k' = k then (k, v) :: t else (k', v') :: assocInsert t k v

/-- Lookup in a loose memo's calls mapping, keyed by serialized text
(`memo.calls.get(fn_args_kwargs, _NotFound)`). -/
def serAssocLookup (l : List (Serialized × α)) (k : Serialized) : Option α :=
  match l with
  | [] => none
  | (k', v) :: t => if serBeq k' k then some v else serAssocLookup t k

/-- Store into a loose memo's calls mapping
(`self.calls[input] = output`: last write wins, position kept). -/
def serAssocInsert (l : List (Serialized × α)) (k : Serialized) (v : α) :
    List (Serialized × α) :=
  match l with
  | [] => [(k, v)]
  | (k', v') :: t =>
    if serBeq k' k then (k, v) :: t else (k', v') :: serAssocInsert t k v

/-- Replace the element at position `i` (no-op when out of range). -/
def listModify (l : List α) (i : Nat) (f : α → α) : List α :=
  match l, i with
  | [], _ => []
  | a :: t, 0 => f a :: t
  | a :: t, n + 1 => a :: listModify t n f

/-- Normalize a (possibly negative) Python sequence index against a
length. -/
def pyIdx (len : Nat) (i : Int) : Nat :=
  if 0 ≤ i then i.toNat else len - (-i).toNat

/-- Python sequence indexing `l[i]`: supports negative indices; `none`
models `IndexError`. -/
def pyGet (l : List α) (i : Int) : Option α :=
  if 0 ≤ i ∨ (-i) ≤ (l.length : Int) then l.get? (pyIdx l.length i) else none

/-- Whitespace stripped by `int(str)`. -/
def isSpaceChar (c : Char) : Bool :=
  c = ' ' || c = '\t' || c = '\n' || c = '\r'

/-- Strip leading and trailing whitespace from a character list. -/
def trimChars (cs : List Char) : List Char :=
  ((cs.dropWhile isSpaceChar).reverse.dropWhile isSpaceChar).reverse

/-- Value of a nonempty all-digit character list; `none` otherwise. -/
def digitsVal (cs : List Char) : Option Nat :=
  match cs with
  | [] => none
  | _ =>
    cs.foldl (fun acc c =>
      match acc with
      | none => none
      | some n => if c.isDigit then some (n * 10 + (c.toNat - 48)) else none)
      (some 0)

/-- `int(s)` on the string value of the replay-index variable: optional
surrounding whitespace and sign followed by digits; `none` models the
`ValueError` raised on anything else. -/
def pyParseInt (s : String) : Option Int :=
  match trimChars s.data with
  | '-' :: rest => (digitsVal rest).map fun n => -(n : Int)
  | '+' :: rest => (digitsVal rest).map fun n => (n : Int)
  | cs => (digitsVal cs).map fun n => (n : Int)

example : pyGet [10, 20, 30] (-1) = some 30 := by rfl
example : pyGet [10, 20, 30] (-4) = (none : Option Nat) := by rfl
example : pyGet [10, 20, 30] 3 = (none : Option Nat) := by rfl
example : pyParseInt " 12 " = some 12 := by rfl
example : pyParseInt "-3" = some (-3) := by rfl
example : pyParseInt "abc" = none := by rfl
example : pyParseInt "" = none := by rfl

/-- `Memo.calls`: a list of (serialized input, serialized output) pairs
for the strict discipline, or a serialized-input keyed mapping for the
loose discipline (`Union[List[Tuple[str, Any]], Dict[str, Any]]`). -/
inductive Calls where
  | strictCalls (l : List (Serialized × Serialized))
  | looseCalls (kvs : List (Serialized × Serialized))
  deriving Repr

/-- `not self.calls`: the calls collection is empty. -/
def Calls.isEmptyCalls : Calls → Bool
  | .strictCalls l => l.isEmpty
  | .looseCalls kvs => kvs.isEmpty

/-- The length of a strict calls list (`len(calls)`); `0` for a loose
mapping (not used by the source on loose memos). -/
def Calls.strictLen : Calls → Nat
  | .strictCalls l => l.length
  | .looseCalls _ => 0

/-- The `Memo` dataclass: one cache per intercepted call site.  The
`serializer` field is normalized to a pair here (the source stores
either a single tag or a pair and compares both forms at replay
time). -/
structure Memo where
  calls : Calls
  cursor : Cursor
  caching_policy : Policy
  serializer : Method × Method
  deriving Repr

/-- `Memo.__post_init__`: a loose memo whose calls collection is empty
(first creation) gets an empty mapping and the `"n/a"` cursor. -/
def Memo.postInit (m : Memo) : Memo :=
  if m.caching_policy = .loose && m.calls.isEmptyCalls then
    { m with calls := .looseCalls [], cursor := .na }
  else m

/-- `Memo(caching_policy=..., serializer=...)` with the dataclass
defaults (`calls = []`, `cursor = 0`) followed by `__post_init__`. -/
def freshMemo (policy : Policy) (ser : Method × Method) : Memo :=
  Memo.postInit
    { calls := .strictCalls [], cursor := .idx 0
      caching_policy := policy, serializer := ser }

/-- `Memo.cache_call(input, output)`: loose discipline stores into the
mapping (last write wins), strict discipline appends the pair.  The
`isinstance(_, str)` asserts cannot fire here because both arguments are
serialized texts by type.  The error branches model the exceptions
Python would raise when the calls collection's shape disagrees with the
policy (`dict[k] = v` on a list, `.append` on a dict). -/
def Memo.cache_call (m : Memo) (input output : Serialized) : Except PyErr Memo :=
  match m.caching_policy with
  | .loose =>
    match m.calls with
    | .looseCalls kvs =>
      .ok { m with calls := .looseCalls (serAssocInsert kvs input output) }
    | .strictCalls _ => .error (.typeError "list indices must be integers")
  | .strict =>
    match m.calls with
    | .strictCalls l =>
      .ok { m with calls := .strictCalls (l ++ [(input, output)]) }
    | .looseCalls _ => .error .attributeError

/-- Outcome of the strict-discipline indexing attempt
(`recording = memo.calls[current_cursor]` inside `try/except
IndexError`). -/
inductive LookupOut where
  | hit (recorded : Serialized × Serialized)
  | exhausted
  | err (e : PyErr)
  deriving Repr

/-- The strict lookup step of `memo.wrapper` (recorder.py lines
324-337): read the pair at the current cursor, then advance the cursor
by one; an out-of-bounds cursor raises `IndexError`, caught as
`exhausted` with the memo unchanged.  The `err` branches model the
uncaught exceptions raised when the memo's fields disagree with the
strict discipline (an `"n/a"` cursor or a mapping-shaped calls
collection). -/
def strictLookupStep (m : Memo) : LookupOut × Memo :=
  match m.calls with
  | .strictCalls l =>
    match m.cursor with
    | .na => (.err (.typeError "list indices must be integers"), m)
    | .idx n =>
      match l.get? n with
      | some pair => (.hit pair, { m with cursor := .idx (n + 1) })
      | none => (.exhausted, m)
  | .looseCalls _ => (.err .keyError, m)

/-- The `Event` dataclass: environment snapshot and timestamp. -/
structure Event where
  env : List (String × String)
  timestamp : String
  deriving Repr

/-- The `Context` dataclass: qualified memo name to `Memo`. -/
structure Context where
  memos : List (String × Memo)
  deriving Repr

/-- The `Scene` dataclass: one `Event` and its `Context`. -/
structure Scene where
  event : Event
  context : Context
  deriving Repr

/-- The `Data` dataclass: the ordered sequence of `Scene`s. -/
structure Data where
  scenes : List Scene
  deriving Repr

/-- `(list(memoizable_args), kwargs)` as dumped by the wrapper (line
233 converts the positional arguments to a list; the pair itself is a
tuple). -/
def argsObjOf (memoArgs : List PyValue) (kwargs : List (String × PyValue)) : PyValue :=
  .pytuple [.pylist memoArgs, .pydict kwargs]

/-- `data.scenes[i].context.memos[name]`, for theorem statements. -/
def memoAt (d : Data) (i : Int) (memoName : String) : Option Memo :=
  (pyGet d.scenes i).bind fun sc => assocLookup sc.context.memos memoName

/-- `data.scenes[i].context.memos[name] = m`: the in-place store on the
scene at (Python) index `i`. -/
def setSceneMemo (d : Data) (i : Int) (memoName : String) (m : Memo) : Data :=
  ⟨listModify d.scenes (pyIdx d.scenes.length i) fun sc =>
    { sc with context := ⟨assocInsert sc.context.memos memoName m⟩ }⟩

/-- Record mode, lines 246-254: `data.scenes[-1].context.memos.get(memo_name)`,
falling back to a fresh `Memo` with the site's policy and serializer
pair.  (The wrapper only reaches this after checking `data.scenes` is
nonempty, so the `none` scene case is unreachable there.) -/
def recordMemo0 (d : Data) (memoName : String) (pol : Policy)
    (ser : Method × Method) : Memo :=
  match pyGet d.scenes (-1) with
  | some sc => (assocLookup sc.context.memos memoName).getD (freshMemo pol ser)
  | none => freshMemo pol ser

/-- Whether an `Except` result models a normal return (the `with
event_db(...)` block only commits when its body returns without
raising). -/
def isOkB : Except PyErr PyValue → Bool
  | .ok _ => true
  | .error _ => false

/-- What one interception run of `memo.wrapper` produces:

* `result`: the value returned to the caller, or the exception raised;
* `data`: the in-memory `Data` object when the `with event_db(...)`
  block ends (mutations applied so far, whether or not they get
  committed);
* `committed`: whether `db.commit()` ran — the `@contextmanager`
  generator `event_db` only commits when the block's body returns, not
  when it raises;
* `realCalled`: whether `propagate()` (the real backend call) ran;
* `warned`: whether at least one `warnings.warn` fired;
* `lookedUp`: whether a cache lookup (the strict indexing attempt or
  the loose mapping `get`) was attempted. -/
structure WrapperOut where
  result : Except PyErr PyValue
  data : Data
  committed : Bool
  realCalled : Bool
  warned : Bool
  lookedUp : Bool
  deriving Repr

/-- `memo.wrapper` (recorder.py lines 152-377), one interception.

Inputs map to the source as follows: `mode` is the value of
`_load_memo_mode()`; `inS`/`outS` the serializer pair after
`_check_serializer`; `pol` the `caching_policy` argument; `memoName`
the `f"namespace.name"` string; `memoArgs`/`kwargs` the memoizable
arguments (a leading bound-method receiver already excluded, per lines
223-233); `idxEnv` the raw value of the `MEMO_REPLAY_IDX` environment
variable; `fnRes` the behaviour of the wrapped function for this call
(`propagate()` returns it or raises its error); `d` the `Data` loaded
by `event_db`.

The `invalid memo mode` branch (lines 372-375) is unrepresentable here
because `MemoModes` has exactly the two valid constructors, and the
final `raise RuntimeError("Unhandled memo path.")` is unreachable in
the source. -/
def wrapper (mode : MemoModes) (inS outS : Method) (pol : Policy)
    (memoName : String) (memoArgs : List PyValue)
    (kwargs : List (String × PyValue)) (idxEnv : Option String)
    (fnRes : Except PyErr PyValue) (d : Data) : WrapperOut :=
  if d.scenes.isEmpty then
    { result := .error (.runtimeError "No scenes: cannot memoize.")
      data := d, committed := false, realCalled := false
      warned := false, lookedUp := false }
  else
    match mode with
    | .record =>
      let memo0 := recordMemo0 d memoName pol (inS, outS)
      match fnRes with
      | .error e =>
        { result := .error e, data := d, committed := false
          realCalled := true, warned := false, lookedUp := false }
      | .ok output =>
        match memoDump .record (argsObjOf memoArgs kwargs) inS (some output) with
        | .error e =>
          { result := .error e, data := d, committed := false
            realCalled := true, warned := false, lookedUp := false }
        | .ok (serIn, _) =>
          match memoDump .record output outS none with
          | .error e =>
            { result := .error e, data := d, committed := false
              realCalled := true, warned := false, lookedUp := false }
          | .ok (serOut, outputAfter) =>
            match memo0.cache_call serIn serOut with
            | .error e =>
              { result := .error e, data := d, committed := false
                realCalled := true, warned := false, lookedUp := false }
            | .ok memo1 =>
              let d1 := setSceneMemo d (-1) memoName memo1
              if outS = .ioTag then
                match memoLoad serOut .ioTag with
                | .ok mock =>
                  { result := .ok mock, data := d1, committed := true
                    realCalled := true, warned := false, lookedUp := false }
                | .error e =>
                  { result := .error e, data := d1, committed := false
                    realCalled := true, warned := false, lookedUp := false }
              else
                { result := .ok outputAfter, data := d1, committed := true
                  realCalled := true, warned := false, lookedUp := false }
    | .replay =>
      match idxEnv with
      | none =>
        { result := .error (.runtimeError
            "provide a MEMO_REPLAY_IDX envvar to tell the replay environ which scene to look at")
          data := d, committed := false, realCalled := false
          warned := false, lookedUp := false }
      | some s =>
        match pyParseInt s with
        | none =>
          { result := .error (.valueError "invalid literal for int")
            data := d, committed := false, realCalled := false
            warned := false, lookedUp := false }
        | some i =>
          match pyGet d.scenes i with
          | none =>
            { result := .error .indexError, data := d, committed := false
              realCalled := false, warned := false, lookedUp := false }
          | some scene =>
            match assocLookup scene.context.memos memoName with
            | none =>
              { result := fnRes, data := d, committed := isOkB fnRes
                realCalled := true, warned := true, lookedUp := false }
            | some memo0 =>
              let metaMismatch : Bool :=
                !(decide (memo0.caching_policy = pol)
                  && decide (memo0.serializer = (inS, outS)))
              let strictB : Bool :=
                if metaMismatch then decide (memo0.caching_policy = .strict)
                else decide (pol = .strict)
              let outS' := if metaMismatch then memo0.serializer.2 else outS
              let inS' := if metaMismatch then memo0.serializer.1 else inS
              match memoDump .replay (argsObjOf memoArgs kwargs) inS' none with
              | .error e =>
                { result := .error e, data := d, committed := false
                  realCalled := false, warned := metaMismatch, lookedUp := false }
              | .ok (fnArgs, _) =>
                if strictB then
                  match strictLookupStep memo0 with
                  | (.err e, _) =>
                    { result := .error e, data := d, committed := false
                      realCalled := false, warned := metaMismatch, lookedUp := true }
                  | (.exhausted, _) =>
                    { result := fnRes, data := d, committed := isOkB fnRes
                      realCalled := true, warned := true, lookedUp := true }
                  | (.hit pair, memo1) =>
                    let d1 := setSceneMemo d i memoName memo1
                    if serBeq pair.1 fnArgs then
                      match memoLoad pair.2 outS' with
                      | .ok v =>
                        { result := .ok v, data := d1, committed := true
                          realCalled := false, warned := metaMismatch, lookedUp := true }
                      | .error e =>
                        { result := .error e, data := d1, committed := false
                          realCalled := false, warned := metaMismatch, lookedUp := true }
                    else
                      { result := fnRes, data := d1, committed := isOkB fnRes
                        realCalled := true, warned := true, lookedUp := true }
                else
                  match memo0.calls with
                  | .strictCalls _ =>
                    { result := .error .attributeError, data := d, committed := false
                      realCalled := false, warned := metaMismatch, lookedUp := true }
                  | .looseCalls kvs =>
                    match serAssocLookup kvs fnArgs with
                    | some rec0 =>
                      match memoLoad rec0 outS' with
                      | .ok v =>
                        { result := .ok v, data := d, committed := true
                          realCalled := false, warned := metaMismatch, lookedUp := true }
                      | .error e =>
                        { result := .error e, data := d, committed := false
                          realCalled := false, warned := metaMismatch, lookedUp := true }
                    | none =>
                      { result := fnRes, data := d, committed := isOkB fnRes
                        realCalled := true, warned := true, lookedUp := true }

/-- The per-scene body of `_reset_replay_cursors`: `memo.cursor = 0`
for every memo of the scene's context, with no discipline filter. -/
def resetSceneCursors (sc : Scene) : Scene :=
  { sc with context := ⟨sc.context.memos.map fun p => (p.1, { p.2 with cursor := .idx 0 })⟩ }

/-- `_reset_replay_cursors(file)` with no explicit scene subset, as
`setup()` invokes it: every memo of every scene gets `cursor = 0`. -/
def resetReplayCursors (d : Data) : Data :=
  ⟨d.scenes.map resetSceneCursors⟩

/-- `_capture()`: an `Event` from the environment snapshot and the
current timestamp (both passed in explicitly here). -/
def captureEvent (env : List (String × String)) (timestamp : String) : Event :=
  ⟨env, timestamp⟩

/-- `_record_current_event(file)`: append a fresh `Scene` with the
captured event and an empty (default) `Context`. -/
def recordCurrentEvent (env : List (String × String)) (timestamp : String)
    (d : Data) : Data :=
  ⟨d.scenes ++ [⟨captureEvent env timestamp, ⟨[]⟩⟩]⟩

/-- `setup(file)`: in record mode append one fresh scene, in replay
mode reset the replay cursors. -/
def setup (mode : MemoModes) (env : List (String × String))
    (timestamp : String) (d : Data) : Data :=
  match mode with
  | .record => recordCurrentEvent env timestamp d
  | .replay => resetReplayCursors d

/-- Parsed JSON payloads of the store file. -/
inductive Json where
  | null
  | jbool (b : Bool)
  | jnum (n : Int)
  | jstr (s : String)
  | jarr (l : List Json)
  | jobj (kvs : List (String × Json))
  deriving Repr

/-- The contents of the store file, partitioned by the outcome of
`json.loads`: empty text, text that fails to decode, or text that
decodes to a JSON value. -/
inductive StoreText where
  | emptyText
  | invalidJson (s : String)
  | jsonVal (j : Json)
  deriving Repr

/-- The serializer-tag strings recognized in a stored memo; any other
value is normalized to `json` here (the source stores the raw value and
`_check_serializer` falls back to `"json"` with a warning at use). -/
def parseMethodTag : Json → Method
  | .jstr "pickle" => .pickle
  | .jstr "json" => .json
  | .jstr "io" => .ioTag
  | .jstr "PebblePush" => .pebblePush
  | _ => .json

/-- `Memo(**content)` on one stored memo object.  `Memo` is a dataclass
whose four fields all have defaults, so the call succeeds if and only
if `content` is a mapping whose keys are a subset of
`calls`/`cursor`/`caching_policy`/`serializer` — the field values are
stored without any validation.  This embedding keeps that exact
success/failure boundary; field values are converted to the typed model
when they have the shape the engine itself writes, and fall back to the
dataclass defaults otherwise (the call entries themselves are not
reconstructed: no claim inspects a loaded calls collection).
`__post_init__` is applied at the end, as in the source. -/
def memoFromJson : Json → Option Memo
  | .jobj kvs =>
    if kvs.all fun kv =>
        kv.1 = "calls" || kv.1 = "cursor" || kv.1 = "caching_policy"
          || kv.1 = "serializer" then
      let pol : Policy :=
        match assocLookup kvs "caching_policy" with
        | some (.jstr "loose") => .loose
        | _ => .strict
      let cur : Cursor :=
        match assocLookup kvs "cursor" with
        | some (.jnum n) => if 0 ≤ n then .idx n.toNat else .idx 0
        | some (.jstr _) => .na
        | _ => .idx 0
      let ser : Method × Method :=
        match assocLookup kvs "serializer" with
        | some (.jarr [a, b]) => (parseMethodTag a, parseMethodTag b)
        | some (.jstr t) => (parseMethodTag (.jstr t), parseMethodTag (.jstr t))
        | _ => (.json, .json)
      let cls : Calls :=
        match assocLookup kvs "calls" with
        | some (.jobj _) => .looseCalls []
        | _ => .strictCalls []
      some (Memo.postInit ⟨cls, cur, pol, ser⟩)
    else none
  | _ => none

/-- `Context.from_dict(obj)`: requires `obj["memos"]` (a missing key or
a non-mapping raises, caught by the scene-parsing `except`), then
builds each memo with `Memo(**content)`. -/
def contextFromJson : Json → Option Context
  | .jobj kvs =>
    match assocLookup kvs "memos" with
    | some (.jobj ms) =>
      (ms.mapM fun kv => (memoFromJson kv.2).map fun m => (kv.1, m)).map
        fun l => ⟨l⟩
    | _ => none
  | _ => none

/-- `Event(**obj)`: both fields are required and have no defaults, so
the keys must be exactly `env` and `timestamp`; the values are not
validated by the dataclass and are converted best-effort (they are only
read back through typed accessors). -/
def eventFromJson : Json → Option Event
  | .jobj kvs =>
    if (kvs.all fun kv => kv.1 = "env" || kv.1 = "timestamp")
        && (assocLookup kvs "env").isSome
        && (assocLookup kvs "timestamp").isSome then
      let env : List (String × String) :=
        match assocLookup kvs "env" with
        | some (.jobj es) =>
          es.map fun kv => (kv.1, match kv.2 with | .jstr s => s | _ => "")
        | _ => []
      let ts : String :=
        match assocLookup kvs "timestamp" with
        | some (.jstr s) => s
        | _ => ""
      some ⟨env, ts⟩
    else none
  | _ => none

/-- `Scene.from_dict(obj)`: `obj["event"]` (subscript on a non-mapping
or a missing key raises), then `Context.from_dict(obj.get("context",
dict()))` — note the default empty dict makes `Context.from_dict` raise
`KeyError("memos")`, so a stored scene with no `context` key fails to
load. -/
def sceneFromJson (j : Json) : Option Scene :=
  match j with
  | .jobj kvs =>
    match assocLookup kvs "event" with
    | none => none
    | some ev =>
      match eventFromJson ev with
      | none => none
      | some e =>
        match contextFromJson ((assocLookup kvs "context").getD (.jobj [])) with
        | none => none
        | some c => some ⟨e, c⟩
  | _ => none

/-- The elements produced by iterating a JSON value in Python
(`for obj in raw.get("scenes", ())`): an array yields its elements, an
object its keys, a string its characters; everything else raises
`TypeError: not iterable`. -/
def iterElems : Json → Option (List Json)
  | .jarr l => some l
  | .jobj kvs => some (kvs.map fun kv => .jstr kv.1)
  | .jstr s => some (s.data.map fun c => .jstr (String.singleton c))
  | _ => none

/-- `DB.load()` (recorder.py lines 389-408) on the text read from the
store file: empty text gives an empty `Data`; undecodable text raises
`ValueError("database invalid: could not json-decode ...")`; a decoded
non-mapping makes `raw.get` raise `AttributeError`; a missing
`"scenes"` key defaults to no scenes; any failure while iterating or
reconstructing the scenes is caught and re-raised as
`RuntimeError("database invalid: could not parse Scenes ...")`.  The
spec's `CorruptDatabase` names the two `database invalid` errors. -/
def DB_load : StoreText → Except PyErr Data
  | .emptyText => .ok ⟨[]⟩
  | .invalidJson _ => .error (.valueError "database invalid: could not json-decode")
  | .jsonVal j =>
    match j with
    | .jobj kvs =>
      match assocLookup kvs "scenes" with
      | none => .ok ⟨[]⟩
      | some sj =>
        match iterElems sj with
        | none => .error (.runtimeError "database invalid: could not parse Scenes")
        | some els =>
          match els.mapM sceneFromJson with
          | some scenes => .ok ⟨scenes⟩
          | none => .error (.runtimeError "database invalid: could not parse Scenes")
    | _ => .error .attributeError

/-- `event_db(file)` up to its `yield`: a missing file is created with
the text of an empty JSON object before `DB.load` runs, so loading an
absent file is loading that object. -/
def eventDbLoad (file : Option StoreText) : Except PyErr Data :=
  DB_load (file.getD (.jsonVal (.jobj [])))

/-- One operation on a strict memo, for the cursor invariant: a record
of a new pair (`cache_call`) or a replay lookup attempt with the
current call's serialized input. -/
inductive MemoOp where
  | cache (input output : Serialized)
  | lookup (current : Serialized)
  deriving Repr

/-- Apply one operation to a memo.  `cache_call` raising (impossible on
a well-formed strict memo) leaves the object unchanged, exactly as an
exception would; a lookup is the strict indexing step (the subsequent
input match does not touch the memo). -/
def applyMemoOp (m : Memo) (op : MemoOp) : Memo :=
  match op with
  | .cache i o =>
    match m.cache_call i o with
    | .ok m' => m'
    | .error _ => m
  | .lookup _ => (strictLookupStep m).2

/-- A strict memo whose cursor lies between `0` and `len(calls)`. -/
def StrictInv (m : Memo) : Prop :=
  ∃ n l, m.cursor = .idx n ∧ m.calls = .strictCalls l ∧ n ≤ l.length

theorem listModify_length (l : List α) (k : Nat) (f : α → α) :
    (listModify l k f).length = l.length := by
  induction l generalizing k with
  | nil => rfl
  | cons a t ih =>
    cases k with
    | zero => rfl
    | succ n => simp [listModify, ih]

theorem get?_listModify_self (l : List α) (k : Nat) (f : α → α) (a : α)
    (h : l.get? k = some a) : (listModify l k f).get? k = some (f a) := by
  induction l generalizing k with
  | nil => simp at h
  | cons b t ih =>
    cases k with
    | zero => simp_all [listModify]
    | succ n => simpa [listModify] using ih n h

theorem assocLookup_assocInsert_self (l : List (String × α)) (k : String) (v : α) :
    assocLookup (assocInsert l k v) k = some v := by
  induction l with
  | nil => simp [assocInsert, assocLookup]
  | cons p t ih =>
    obtain ⟨k', v'⟩ := p
    by_cases h : k' = k
    · simp [assocInsert, assocLookup, h]
    · simp [assocInsert, assocLookup, h, ih]

theorem pyGet_isEmpty_false {l : List α} {i : Int} {a : α}
    (h : pyGet l i = some a) : l.isEmpty = false := by
  cases l with
  | nil => simp [pyGet] at h
  | cons b t => rfl

theorem pyGet_listModify_self {l : List α} {i : Int} {a : α} (f : α → α)
    (h : pyGet l i = some a) :
    pyGet (listModify l (pyIdx l.length i) f) i = some (f a) := by
  unfold pyGet at h ⊢
  rw [listModify_length]
  split at h
  · rename_i hc
    rw [if_pos hc]
    exact get?_listModify_self _ _ _ _ h
  · exact absurd h (by simp)

theorem memoAt_setSceneMemo_self {d : Data} {i : Int} {sc : Scene}
    (memoName : String) (m : Memo) (h : pyGet d.scenes i = some sc) :
    memoAt (setSceneMemo d i memoName m) i memoName = some m := by
  unfold memoAt setSceneMemo
  have h2 := pyGet_listModify_self
    (fun s => { s with context := ⟨assocInsert s.context.memos memoName m⟩ }) h
  simp only [h2, Option.bind_some, Option.some_bind]
  exact assocLookup_assocInsert_self _ _ _

/-- Shared concrete store for witnesses: one scene holding one strict
memo named `A.get_status` with a single recorded call
`(no arguments, "active")` and cursor `0`. -/
def wPairIn : Serialized := .jsonTxt (.pylist [.pylist [], .pydict []])

/-- The recorded output of the sample call. -/
def wPairOut : Serialized := .jsonTxt (.pystr "active")

/-- The sample strict memo. -/
def wMemo : Memo :=
  ⟨.strictCalls [(wPairIn, wPairOut)], .idx 0, .strict, (.json, .json)⟩

/-- The sample event. -/
def wEvent : Event := ⟨[("JUJU_DISPATCH_PATH", "hooks/start")], "t0"⟩

/-- The sample scene. -/
def wScene : Scene := ⟨wEvent, ⟨[("A.get_status", wMemo)]⟩⟩

/-- The sample store. -/
def wData : Data := ⟨[wScene]⟩

/-- C1: during strict replay, when the cursor is within bounds
(`cursor < len(calls)`) the lookup advances it by exactly one, whether
or not the recorded serialized input matches the current one; the
match is checked afterwards, against the pair read at the old cursor
position, and only decides between returning the recorded output and
falling back to the real call. -/
theorem c1_strict_lookup_advances_cursor
    (inS outS : Method) (memoName : String) (memoArgs : List PyValue)
    (kwargs : List (String × PyValue)) (idxStr : String) (i : Int)
    (fnRes : Except PyErr PyValue) (d : Data) (scene : Scene) (memo0 : Memo)
    (l : List (Serialized × Serialized)) (n : Nat)
    (fnArgs : Serialized) (rest : PyValue) (pair : Serialized × Serialized)
    (hidx : pyParseInt idxStr = some i)
    (hscene : pyGet d.scenes i = some scene)
    (hmemo : assocLookup scene.context.memos memoName = some memo0)
    (hpol : memo0.caching_policy = .strict)
    (hser : memo0.serializer = (inS, outS))
    (hcalls : memo0.calls = .strictCalls l)
    (hcur : memo0.cursor = .idx n)
    (hdump : memoDump .replay (argsObjOf memoArgs kwargs) inS none = .ok (fnArgs, rest))
    (hpair : l[n]? = some pair) :
    (memoAt (wrapper .replay inS outS .strict memoName memoArgs kwargs
        (some idxStr) fnRes d).data i memoName).map Memo.cursor
      = some (.idx (n + 1))
    ∧ (wrapper .replay inS outS .strict memoName memoArgs kwargs
        (some idxStr) fnRes d).result
      = (if serBeq pair.1 fnArgs then memoLoad pair.2 outS else fnRes) := by
  have hE : d.scenes.isEmpty = false := pyGet_isEmpty_false hscene
  have hstep : strictLookupStep memo0 =
      (.hit pair, ⟨.strictCalls l, .idx (n + 1), .strict, (inS, outS)⟩) := by
    simp [strictLookupStep, hcalls, hcur, hpair, hpol, hser]
  have hAt := memoAt_setSceneMemo_self (d := d) (i := i) memoName
    (⟨.strictCalls l, .idx (n + 1), .strict, (inS, outS)⟩ : Memo) hscene
  by_cases hb : serBeq pair.1 fnArgs = true
  · cases hml : memoLoad pair.2 outS with
    | ok v =>
      constructor
      · simp [wrapper, hE, hidx, hscene, hmemo, hpol, hser, hdump, hstep, hb, hml, hAt]
      · simp [wrapper, hE, hidx, hscene, hmemo, hpol, hser, hdump, hstep, hb, hml, hAt]
    | error e =>
      constructor
      · simp [wrapper, hE, hidx, hscene, hmemo, hpol, hser, hdump, hstep, hb, hml, hAt]
      · simp [wrapper, hE, hidx, hscene, hmemo, hpol, hser, hdump, hstep, hb, hml, hAt]
  · constructor
    · simp [wrapper, hE, hidx, hscene, hmemo, hpol, hser, hdump, hstep, hb, hAt]
    · simp [wrapper, hE, hidx, hscene, hmemo, hpol, hser, hdump, hstep, hb, hAt]

/-- Witness for C1 at the sample store: scene index 0, matching
arguments, in-bounds cursor 0; the cursor advances to 1 and the
recorded output is returned. -/
theorem c1_strict_lookup_advances_cursor_witness :
    [(wPairIn, wPairOut)][0]? = some (wPairIn, wPairOut)
    ∧ (memoAt (wrapper .replay .json .json .strict "A.get_status" [] []
        (some "0") (.ok (.pystr "real")) wData).data 0 "A.get_status").map Memo.cursor
      = some (.idx 1)
    ∧ (wrapper .replay .json .json .strict "A.get_status" [] []
        (some "0") (.ok (.pystr "real")) wData).result
      = (if serBeq wPairIn wPairIn then memoLoad wPairOut .json
         else .ok (.pystr "real")) :=
  ⟨rfl, c1_strict_lookup_advances_cursor .json .json "A.get_status" [] [] "0" 0
    (.ok (.pystr "real")) wData wScene wMemo [(wPairIn, wPairOut)] 0 wPairIn
    (.pytuple [.pylist [], .pydict []]) (wPairIn, wPairOut)
    rfl rfl rfl rfl rfl rfl rfl rfl rfl⟩

/-- C2: during strict replay, on cursor exhaustion or on a mismatch
between the recorded serialized input and the current call's serialized
input, the wrapper warns and returns the real call's outcome (never an
error of its own for the condition), and the memo's calls collection is
left untouched. -/
theorem c2_strict_divergence_falls_back
    (inS outS : Method) (memoName : String) (memoArgs : List PyValue)
    (kwargs : List (String × PyValue)) (idxStr : String) (i : Int)
    (fnRes : Except PyErr PyValue) (d : Data) (scene : Scene) (memo0 : Memo)
    (l : List (Serialized × Serialized)) (n : Nat)
    (fnArgs : Serialized) (rest : PyValue)
    (hidx : pyParseInt idxStr = some i)
    (hscene : pyGet d.scenes i = some scene)
    (hmemo : assocLookup scene.context.memos memoName = some memo0)
    (hpol : memo0.caching_policy = .strict)
    (hser : memo0.serializer = (inS, outS))
    (hcalls : memo0.calls = .strictCalls l)
    (hcur : memo0.cursor = .idx n)
    (hdump : memoDump .replay (argsObjOf memoArgs kwargs) inS none = .ok (fnArgs, rest))
    (hdiv : l[n]? = none
      ∨ ∃ pair, l[n]? = some pair ∧ serBeq pair.1 fnArgs = false) :
    (wrapper .replay inS outS .strict memoName memoArgs kwargs
        (some idxStr) fnRes d).result = fnRes
    ∧ (wrapper .replay inS outS .strict memoName memoArgs kwargs
        (some idxStr) fnRes d).warned = true
    ∧ (wrapper .replay inS outS .strict memoName memoArgs kwargs
        (some idxStr) fnRes d).realCalled = true
    ∧ (memoAt (wrapper .replay inS outS .strict memoName memoArgs kwargs
        (some idxStr) fnRes d).data i memoName).map Memo.calls
      = some (.strictCalls l) := by
  have hE : d.scenes.isEmpty = false := pyGet_isEmpty_false hscene
  rcases hdiv with hnone | ⟨pair, hpair, hb⟩
  · have hstep : strictLookupStep memo0 = (.exhausted, memo0) := by
      simp [strictLookupStep, hcalls, hcur, hnone]
    refine ⟨?_, ?_, ?_, ?_⟩ <;>
      simp [wrapper, hE, hidx, hscene, hmemo, hpol, hser, hdump, hstep,
        memoAt, hcalls]
  · have hstep : strictLookupStep memo0 =
        (.hit pair, ⟨.strictCalls l, .idx (n + 1), .strict, (inS, outS)⟩) := by
      simp [strictLookupStep, hcalls, hcur, hpair, hpol, hser]
    have hAt := memoAt_setSceneMemo_self (d := d) (i := i) memoName
      (⟨.strictCalls l, .idx (n + 1), .strict, (inS, outS)⟩ : Memo) hscene
    refine ⟨?_, ?_, ?_, ?_⟩ <;>
      simp [wrapper, hE, hidx, hscene, hmemo, hpol, hser, hdump, hstep, hb, hAt]

/-- Witness for C2 at the sample store: replaying with different
arguments (`("extra")`) mismatches the recorded input; the real call's
result is returned, a warning fires, and the calls list is unchanged. -/
theorem c2_strict_divergence_falls_back_witness :
    serBeq wPairIn (.jsonTxt (.pylist [.pylist [.pystr "extra"], .pydict []])) = false
    ∧ (wrapper .replay .json .json .strict "A.get_status" [.pystr "extra"] []
        (some "0") (.ok (.pystr "real")) wData).result = .ok (.pystr "real")
    ∧ (wrapper .replay .json .json .strict "A.get_status" [.pystr "extra"] []
        (some "0") (.ok (.pystr "real")) wData).warned = true
    ∧ (wrapper .replay .json .json .strict "A.get_status" [.pystr "extra"] []
        (some "0") (.ok (.pystr "real")) wData).realCalled = true
    ∧ (memoAt (wrapper .replay .json .json .strict "A.get_status" [.pystr "extra"] []
        (some "0") (.ok (.pystr "real")) wData).data 0 "A.get_status").map Memo.calls
      = some (.strictCalls [(wPairIn, wPairOut)]) :=
  ⟨rfl, c2_strict_divergence_falls_back .json .json "A.get_status" [.pystr "extra"] []
    "0" 0 (.ok (.pystr "real")) wData wScene wMemo [(wPairIn, wPairOut)] 0
    (.jsonTxt (.pylist [.pylist [.pystr "extra"], .pydict []]))
    (.pytuple [.pylist [.pystr "extra"], .pydict []])
    rfl rfl rfl rfl rfl rfl rfl rfl
    (.inr ⟨(wPairIn, wPairOut), rfl, rfl⟩)⟩

/-- C3 counterexample: with the `io` output serializer, record mode does
not return the real output unchanged.  The real call returns a stream
that is already at EOF; the wrapper caches its remaining contents (the
empty string) and hands the caller a fresh, unconsumed in-memory stream
reconstructed from that cache — a different value than the real
output. -/
theorem c3_io_output_not_returned_unchanged :
    (wrapper .record .json .ioTag .strict "ns.f" [] [] none
      (.ok (.stream "hello" true)) ⟨[⟨⟨[], "t0"⟩, ⟨[]⟩⟩]⟩).result
      = .ok (.stream "" false)
    ∧ (Except.ok (PyValue.stream "" false) : Except PyErr PyValue)
      ≠ .ok (.stream "hello" true) :=
  ⟨rfl, by simp⟩

/-- C3 as amended: in record mode, when the real call returns a value
and every serialization step succeeds, the wrapper caches the
serialized pair into the current (last) scene's memo and returns the
real output to the caller unchanged — for every configured output
serializer other than `io`; with `io` it instead returns a fresh
in-memory stream reconstructed from the recorded contents (see the
counterexample). -/
theorem c3_record_returns_real_output
    (inS outS : Method) (pol : Policy) (memoName : String)
    (memoArgs : List PyValue) (kwargs : List (String × PyValue))
    (idxEnv : Option String) (v : PyValue) (d : Data)
    (serIn serOut : Serialized) (rest : PyValue) (memo1 : Memo)
    (hne : d.scenes ≠ [])
    (houtS : outS ≠ .ioTag)
    (hdumpIn : memoDump .record (argsObjOf memoArgs kwargs) inS (some v)
      = .ok (serIn, rest))
    (hdumpOut : memoDump .record v outS none = .ok (serOut, v))
    (hcache : (recordMemo0 d memoName pol (inS, outS)).cache_call serIn serOut
      = .ok memo1) :
    (wrapper .record inS outS pol memoName memoArgs kwargs idxEnv (.ok v) d).result
      = .ok v
    ∧ (wrapper .record inS outS pol memoName memoArgs kwargs idxEnv (.ok v) d).data
      = setSceneMemo d (-1) memoName memo1
    ∧ (wrapper .record inS outS pol memoName memoArgs kwargs idxEnv (.ok v) d).committed
      = true
    ∧ (wrapper .record inS outS pol memoName memoArgs kwargs idxEnv (.ok v) d).realCalled
      = true := by
  have hE : d.scenes.isEmpty = false := by
    cases hds : d.scenes with
    | nil => exact absurd hds hne
    | cons a t => rfl
  refine ⟨?_, ?_, ?_, ?_⟩ <;>
    simp [wrapper, hE, hdumpIn, hdumpOut, hcache, houtS]

/-- Witness for C3 (amended) at an empty sample scene: a json-serialized
call returning `"active"` is cached and returned unchanged. -/
theorem c3_record_returns_real_output_witness :
    (⟨[wScene]⟩ : Data).scenes ≠ []
    ∧ (Method.json ≠ .ioTag)
    ∧ (wrapper .record .json .json .strict "A.get_status" [] [] none
        (.ok (.pystr "active")) ⟨[wScene]⟩).result = .ok (.pystr "active")
    ∧ (wrapper .record .json .json .strict "A.get_status" [] [] none
        (.ok (.pystr "active")) ⟨[wScene]⟩).committed = true :=
  ⟨by simp, by simp, (c3_record_returns_real_output .json .json .strict "A.get_status"
      [] [] none (.pystr "active") ⟨[wScene]⟩ wPairIn (.jsonTxt (.pystr "active"))
      (.pytuple [.pylist [], .pydict []])
      ⟨.strictCalls [(wPairIn, wPairOut), (wPairIn, .jsonTxt (.pystr "active"))],
        .idx 0, .strict, (.json, .json)⟩
      (by simp) (by simp) rfl rfl rfl).1,
    (c3_record_returns_real_output .json .json .strict "A.get_status"
      [] [] none (.pystr "active") ⟨[wScene]⟩ wPairIn (.jsonTxt (.pystr "active"))
      (.pytuple [.pylist [], .pydict []])
      ⟨.strictCalls [(wPairIn, wPairOut), (wPairIn, .jsonTxt (.pystr "active"))],
        .idx 0, .strict, (.json, .json)⟩
      (by simp) (by simp) rfl rfl rfl).2.2.1⟩

theorem strictInv_applyMemoOp (m : Memo) (op : MemoOp) (h : StrictInv m) :
    StrictInv (applyMemoOp m op) := by
  obtain ⟨n, l, hcur, hcalls, hle⟩ := h
  cases op with
  | cache i o =>
    cases hpol : m.caching_policy with
    | loose =>
      refine ⟨n, l, ?_, ?_, hle⟩ <;>
        simp [applyMemoOp, Memo.cache_call, hpol, hcalls, hcur]
    | strict =>
      refine ⟨n, l ++ [(i, o)], ?_, ?_, ?_⟩ <;>
        simp [applyMemoOp, Memo.cache_call, hpol, hcalls, hcur]
      omega
  | lookup cur =>
    cases hget : l[n]? with
    | some pair =>
      have hlt : n < l.length := by
        have := List.getElem?_eq_some_iff.mp hget
        exact this.1
      refine ⟨n + 1, l, ?_, ?_, by omega⟩ <;>
        simp [applyMemoOp, strictLookupStep, hcalls, hcur, hget]
    | none =>
      have hsame : applyMemoOp m (.lookup cur) = m := by
        simp [applyMemoOp, strictLookupStep, hcalls, hcur, hget]
      rw [StrictInv, hsame]
      exact ⟨n, l, hcur, hcalls, hle⟩

theorem strictInv_foldl (ops : List MemoOp) (m : Memo) (h : StrictInv m) :
    StrictInv (ops.foldl applyMemoOp m) := by
  induction ops generalizing m with
  | nil => exact h
  | cons op t ih => exact ih _ (strictInv_applyMemoOp m op h)

/-- C4: starting from a fresh strict memo, after any sequence of
`cache_call` and strict lookup operations the cursor satisfies
`0 ≤ cursor ≤ len(calls)` (the cursor is a natural number in this
embedding, so the lower bound is by construction); moreover a
`cache_call` appends the pair without moving the cursor, and a lookup
advances the cursor exactly when it reads a pair within bounds. -/
theorem c4_strict_cursor_invariant :
    (∀ (ser : Method × Method) (ops : List MemoOp),
      StrictInv (ops.foldl applyMemoOp (freshMemo .strict ser)))
    ∧ (∀ (l : List (Serialized × Serialized)) (n : Nat) (ser : Method × Method)
        (i o : Serialized),
      applyMemoOp ⟨.strictCalls l, .idx n, .strict, ser⟩ (.cache i o)
        = ⟨.strictCalls (l ++ [(i, o)]), .idx n, .strict, ser⟩)
    ∧ (∀ (l : List (Serialized × Serialized)) (n : Nat) (ser : Method × Method)
        (cur : Serialized),
      (applyMemoOp ⟨.strictCalls l, .idx n, .strict, ser⟩ (.lookup cur)).cursor
        = .idx (if n < l.length then n + 1 else n)) := by
  refine ⟨fun ser ops => strictInv_foldl ops _ ⟨0, [], rfl, rfl, Nat.le_refl 0⟩,
    fun l n ser i o => rfl, fun l n ser cur => ?_⟩
  by_cases h : n < l.length
  · have hget : l[n]? = some l[n] := List.getElem?_eq_getElem h
    simp [applyMemoOp, strictLookupStep, hget, h]
  · have hget : l[n]? = none := by
      rw [List.getElem?_eq_none_iff]
      omega
    simp [applyMemoOp, strictLookupStep, hget, h]

mutual

theorem jsonNorm_eq_self : ∀ v : PyValue, tupleFree v = true → jsonNorm v = v
  | .pynone, _ => rfl
  | .pybool _, _ => rfl
  | .pyint _, _ => rfl
  | .pystr _, _ => rfl
  | .pybytes _, _ => rfl
  | .pickled _, _ => rfl
  | .stream _ _, _ => rfl
  | .pytuple _, h => by simp [tupleFree] at h
  | .pylist vs, h => congrArg PyValue.pylist (jsonNormL_eq_self vs h)
  | .pydict kvs, h => congrArg PyValue.pydict (jsonNormKV_eq_self kvs h)

theorem jsonNormL_eq_self : ∀ vs : List PyValue, tupleFreeL vs = true → jsonNormL vs = vs
  | [], _ => rfl
  | v :: vs, h => by
    have h2 := (Bool.and_eq_true _ _).mp h
    show jsonNorm v :: jsonNormL vs = v :: vs
    rw [jsonNorm_eq_self v h2.1, jsonNormL_eq_self vs h2.2]

theorem jsonNormKV_eq_self : ∀ kvs : List (String × PyValue),
    tupleFreeKV kvs = true → jsonNormKV kvs = kvs
  | [], _ => rfl
  | (k, v) :: kvs, h => by
    have h2 := (Bool.and_eq_true _ _).mp h
    show (k, jsonNorm v) :: jsonNormKV kvs = (k, v) :: kvs
    rw [jsonNorm_eq_self v h2.1, jsonNormKV_eq_self kvs h2.2]

end

/-- C5 counterexample: the `PebblePush` (composite-push) format does not
round trip.  Encoding `(("/p", "data"), no kwargs)` succeeds — the
source is substituted by its pickled form and the pair pickled — but
`_load` has no `PebblePush` branch and raises
`ValueError("Invalid method: ...")`; decoding the encoded form with
`pickle` instead yields the substituted pair, not the original
value. -/
theorem c5_pebblepush_roundtrip_fails :
    memoDump .record (.pytuple [.pytuple [.pystr "/p", .pystr "data"], .pydict []])
        .pebblePush none
      = .ok (.b64pickle (.pytuple [.pytuple [.pystr "/p", .pickled (.pystr "data")],
            .pydict []]),
          .pytuple [.pytuple [.pystr "/p", .pystr "data"], .pydict []])
    ∧ memoLoad (.b64pickle (.pytuple [.pytuple [.pystr "/p",
          .pickled (.pystr "data")], .pydict []])) .pebblePush
      = .error (.valueError "Invalid method: PebblePush")
    ∧ memoLoad (.b64pickle (.pytuple [.pytuple [.pystr "/p",
          .pickled (.pystr "data")], .pydict []])) .pickle
      ≠ .ok (.pytuple [.pytuple [.pystr "/p", .pystr "data"], .pydict []]) :=
  ⟨rfl, rfl, by simp [memoLoad]⟩

/-- C5 as amended: `decode(encode(x)) == x` holds for the `json` format
on JSON-representable (tuple-free) values, for the `pickle` format on
picklable values, and for the `io` format on unconsumed streams (the
decoded stream is a fresh stream with equal contents); the
`composite-push`/`PebblePush` format has no decoder — its encoder
produces a `pickle` payload with the source substituted per the
substitution rule, and decoding with the `PebblePush` tag always fails
(see the counterexample). -/
theorem c5_serializer_roundtrips :
    (∀ (mode : MemoModes) (v : PyValue), jsonDumpable v = true → tupleFree v = true →
      memoDump mode v .json none = .ok (.jsonTxt v, v)
      ∧ memoLoad (.jsonTxt v) .json = .ok v)
    ∧ (∀ (mode : MemoModes) (v : PyValue), pickleable v = true →
      memoDump mode v .pickle none = .ok (.b64pickle v, v)
      ∧ memoLoad (.b64pickle v) .pickle = .ok v)
    ∧ (∀ (mode : MemoModes) (c : String),
      memoDump mode (.stream c false) .ioTag none
        = .ok (.b64pickle (.pystr c), .stream c true)
      ∧ memoLoad (.b64pickle (.pystr c)) .ioTag = .ok (.stream c false))
    ∧ (∀ s : Serialized,
      memoLoad s .pebblePush = .error (.valueError "Invalid method: PebblePush")) := by
  refine ⟨fun mode v hd ht => ⟨?_, rfl⟩, fun mode v hp => ⟨?_, rfl⟩,
    fun mode c => ⟨rfl, rfl⟩, fun s => rfl⟩
  · simp [memoDump, hd, jsonNorm_eq_self v ht]
  · simp [memoDump, pickleDump, hp, Except.map]

/-- Witness for C5 (amended): concrete round trips for each format. -/
theorem c5_serializer_roundtrips_witness :
    jsonDumpable (.pylist [.pyint 1, .pystr "a"]) = true
    ∧ tupleFree (.pylist [.pyint 1, .pystr "a"]) = true
    ∧ pickleable (.pydict [("k", .pybytes [0, 1])]) = true
    ∧ memoLoad (.jsonTxt (.pylist [.pyint 1, .pystr "a"])) .json
      = .ok (.pylist [.pyint 1, .pystr "a"])
    ∧ memoDump .record (.pydict [("k", .pybytes [0, 1])]) .pickle none
      = .ok (.b64pickle (.pydict [("k", .pybytes [0, 1])]),
          .pydict [("k", .pybytes [0, 1])])
    ∧ memoDump .replay (.stream "hello" false) .ioTag none
      = .ok (.b64pickle (.pystr "hello"), .stream "hello" true)
    ∧ memoLoad (.b64pickle (.pystr "hello")) .ioTag = .ok (.stream "hello" false)
    ∧ memoLoad (.jsonTxt .pynone) .pebblePush
      = .error (.valueError "Invalid method: PebblePush") :=
  ⟨rfl, rfl, rfl,
    (c5_serializer_roundtrips.1 .record (.pylist [.pyint 1, .pystr "a"]) rfl rfl).2,
    (c5_serializer_roundtrips.2.1 .record (.pydict [("k", .pybytes [0, 1])]) rfl).1,
    (c5_serializer_roundtrips.2.2.1 .replay "hello").1,
    (c5_serializer_roundtrips.2.2.1 .replay "hello").2,
    c5_serializer_roundtrips.2.2.2 (.jsonTxt .pynone)⟩

/-- C6: in replay mode, a missing replay scene index raises the
configuration `RuntimeError`, and a non-integer one makes `int(idx)`
raise `ValueError` (the `except TypeError` clause does not catch it);
either way the interception raises before any cache lookup is
attempted, the real call is not made, and the store is untouched. -/
theorem c6_replay_missing_index_fails_fast
    (inS outS : Method) (pol : Policy) (memoName : String)
    (memoArgs : List PyValue) (kwargs : List (String × PyValue))
    (idxEnv : Option String) (fnRes : Except PyErr PyValue) (d : Data)
    (hbad : idxEnv = none ∨ ∃ s, idxEnv = some s ∧ pyParseInt s = none) :
    (∃ e, (wrapper .replay inS outS pol memoName memoArgs kwargs idxEnv
        fnRes d).result = .error e)
    ∧ (wrapper .replay inS outS pol memoName memoArgs kwargs idxEnv
        fnRes d).lookedUp = false
    ∧ (wrapper .replay inS outS pol memoName memoArgs kwargs idxEnv
        fnRes d).realCalled = false
    ∧ (wrapper .replay inS outS pol memoName memoArgs kwargs idxEnv
        fnRes d).data = d := by
  cases hE : d.scenes.isEmpty with
  | true => exact ⟨⟨.runtimeError "No scenes: cannot memoize.",
      by simp [wrapper, hE]⟩, by simp [wrapper, hE], by simp [wrapper, hE],
      by simp [wrapper, hE]⟩
  | false =>
    rcases hbad with hnone | ⟨s, hs, hp⟩
    · subst hnone
      exact ⟨⟨.runtimeError
          "provide a MEMO_REPLAY_IDX envvar to tell the replay environ which scene to look at",
        by simp [wrapper, hE]⟩, by simp [wrapper, hE], by simp [wrapper, hE],
        by simp [wrapper, hE]⟩
    · subst hs
      exact ⟨⟨.valueError "invalid literal for int",
        by simp [wrapper, hE, hp]⟩, by simp [wrapper, hE, hp],
        by simp [wrapper, hE, hp], by simp [wrapper, hE, hp]⟩

/-- Witness for C6 at the sample store with the non-integer index
`"abc"`. -/
theorem c6_replay_missing_index_fails_fast_witness :
    pyParseInt "abc" = none
    ∧ (∃ e, (wrapper .replay .json .json .strict "A.get_status" [] []
        (some "abc") (.ok (.pystr "real")) wData).result = .error e)
    ∧ (wrapper .replay .json .json .strict "A.get_status" [] []
        (some "abc") (.ok (.pystr "real")) wData).lookedUp = false
    ∧ (wrapper .replay .json .json .strict "A.get_status" [] []
        (some "abc") (.ok (.pystr "real")) wData).realCalled = false :=
  ⟨rfl, (c6_replay_missing_index_fails_fast .json .json .strict "A.get_status"
      [] [] (some "abc") (.ok (.pystr "real")) wData (.inr ⟨"abc", rfl, rfl⟩)).1,
    (c6_replay_missing_index_fails_fast .json .json .strict "A.get_status"
      [] [] (some "abc") (.ok (.pystr "real")) wData (.inr ⟨"abc", rfl, rfl⟩)).2.1,
    (c6_replay_missing_index_fails_fast .json .json .strict "A.get_status"
      [] [] (some "abc") (.ok (.pystr "real")) wData (.inr ⟨"abc", rfl, rfl⟩)).2.2.1⟩

/-- C7 counterexample: `_reset_replay_cursors` (invoked by `setup()` in
replay mode) does not leave loose memos unchanged — it sets `cursor = 0`
on every memo of every scene, overwriting the loose `"n/a"` sentinel. -/
theorem c7_loose_cursor_overwritten :
    (freshMemo .loose (.json, .json)).cursor = .na
    ∧ (memoAt (setup .replay [] "t1"
        ⟨[⟨wEvent, ⟨[("m", freshMemo .loose (.json, .json))]⟩⟩]⟩) 0 "m").map
        Memo.cursor
      = some (.idx 0)
    ∧ (Cursor.na ≠ Cursor.idx 0) :=
  ⟨rfl, rfl, by simp⟩

/-- C7 as amended: after `setup()` in replay mode every memo of every
scene — strict and loose alike — has cursor `0`; a loose memo's `"n/a"`
sentinel does not survive the reset (see the counterexample), which is
harmless because the loose lookup never consults the cursor. -/
theorem c7_reset_all_cursors
    (env : List (String × String)) (timestamp : String) (d : Data)
    (sc : Scene) (p : String × Memo)
    (hsc : sc ∈ (setup .replay env timestamp d).scenes)
    (hp : p ∈ sc.context.memos) :
    p.2.cursor = .idx 0 := by
  simp only [setup, resetReplayCursors, List.mem_map] at hsc
  obtain ⟨sc0, _, heq⟩ := hsc
  subst heq
  simp only [resetSceneCursors, List.mem_map] at hp
  obtain ⟨p0, _, hpeq⟩ := hp
  subst hpeq
  rfl

/-- Witness for C7 (amended) at a one-scene store holding one loose
memo. -/
theorem c7_reset_all_cursors_witness :
    ⟨wEvent, ⟨[("m", { freshMemo .loose (.json, .json) with cursor := .idx 0 })]⟩⟩
      ∈ (setup .replay [] "t1"
          ⟨[⟨wEvent, ⟨[("m", freshMemo .loose (.json, .json))]⟩⟩]⟩).scenes
    ∧ ("m", { freshMemo .loose (.json, .json) with cursor := Cursor.idx 0 }).2.cursor
      = .idx 0 :=
  ⟨by simp [setup, resetReplayCursors, resetSceneCursors, freshMemo, Memo.postInit],
    c7_reset_all_cursors [] "t1"
      ⟨[⟨wEvent, ⟨[("m", freshMemo .loose (.json, .json))]⟩⟩]⟩
      ⟨wEvent, ⟨[("m", { freshMemo .loose (.json, .json) with cursor := .idx 0 })]⟩⟩
      ("m", { freshMemo .loose (.json, .json) with cursor := .idx 0 })
      (by simp [setup, resetReplayCursors, resetSceneCursors, freshMemo, Memo.postInit])
      (by simp)⟩

/-- C8: loading the store returns an empty `Data` when the file is
absent (it is created holding an empty JSON object) or empty, treating
both as success; a present, non-empty file whose text does not decode,
or whose scenes cannot be reconstructed, aborts with the corresponding
`database invalid` error (the spec's `CorruptDatabase`) and yields no
`Data`. -/
theorem c8_load_empty_ok_corrupt_fails :
    (eventDbLoad none = .ok ⟨[]⟩)
    ∧ (DB_load .emptyText = .ok ⟨[]⟩)
    ∧ (∀ s : String, DB_load (.invalidJson s)
        = .error (.valueError "database invalid: could not json-decode"))
    ∧ (∀ (kvs : List (String × Json)) (sj : Json) (els : List Json),
        assocLookup kvs "scenes" = some sj →
        iterElems sj = some els →
        els.mapM sceneFromJson = none →
        DB_load (.jsonVal (.jobj kvs))
          = .error (.runtimeError "database invalid: could not parse Scenes"))
    ∧ (∀ (kvs : List (String × Json)) (sj : Json),
        assocLookup kvs "scenes" = some sj →
        iterElems sj = none →
        DB_load (.jsonVal (.jobj kvs))
          = .error (.runtimeError "database invalid: could not parse Scenes")) := by
  refine ⟨rfl, rfl, fun s => rfl, fun kvs sj els h1 h2 h3 => ?_, fun kvs sj h1 h2 => ?_⟩
  · rw [List.mapM] at h3
    simp [DB_load, h1, h2, h3]
  · simp [DB_load, h1, h2]

/-- Witness for C8: the concrete corrupt stores — undecodable text, and
a scene object with no `event` key — both abort with the
`database invalid` errors, while the absent/empty stores load an empty
`Data`. -/
theorem c8_load_empty_ok_corrupt_fails_witness :
    assocLookup [("scenes", Json.jarr [.jobj [("bogus", .null)]])] "scenes"
      = some (.jarr [.jobj [("bogus", .null)]])
    ∧ iterElems (.jarr [.jobj [("bogus", .null)]]) = some [.jobj [("bogus", .null)]]
    ∧ [Json.jobj [("bogus", .null)]].mapM sceneFromJson = none
    ∧ eventDbLoad none = .ok ⟨[]⟩
    ∧ DB_load (.invalidJson "not json")
      = .error (.valueError "database invalid: could not json-decode")
    ∧ DB_load (.jsonVal (.jobj [("scenes", .jarr [.jobj [("bogus", .null)]])]))
      = .error (.runtimeError "database invalid: could not parse Scenes") :=
  ⟨rfl, rfl, rfl, c8_load_empty_ok_corrupt_fails.1,
    c8_load_empty_ok_corrupt_fails.2.2.1 "not json",
    c8_load_empty_ok_corrupt_fails.2.2.2.1
      [("scenes", .jarr [.jobj [("bogus", .null)]])]
      (.jarr [.jobj [("bogus", .null)]]) [.jobj [("bogus", .null)]] rfl rfl rfl⟩

/-- C9: in record mode, when the real backend call raises, the wrapper
re-raises that same exception to the caller, no memo is touched (the
in-memory `Data` is exactly as loaded), and — because the exception
escapes the `with event_db(...)` block before `db.commit()` — the store
file is not rewritten. -/
theorem c9_record_failure_propagates
    (inS outS : Method) (pol : Policy) (memoName : String)
    (memoArgs : List PyValue) (kwargs : List (String × PyValue))
    (idxEnv : Option String) (e : PyErr) (d : Data)
    (hne : d.scenes ≠ []) :
    (wrapper .record inS outS pol memoName memoArgs kwargs idxEnv
        (.error e) d).result = .error e
    ∧ (wrapper .record inS outS pol memoName memoArgs kwargs idxEnv
        (.error e) d).data = d
    ∧ (wrapper .record inS outS pol memoName memoArgs kwargs idxEnv
        (.error e) d).committed = false
    ∧ (wrapper .record inS outS pol memoName memoArgs kwargs idxEnv
        (.error e) d).realCalled = true := by
  have hE : d.scenes.isEmpty = false := by
    cases hds : d.scenes with
    | nil => exact absurd hds hne
    | cons a t => rfl
  exact ⟨by simp [wrapper, hE], by simp [wrapper, hE], by simp [wrapper, hE],
    by simp [wrapper, hE]⟩

/-- Witness for C9: a failing backend call (`other 7`) at the sample
store propagates unchanged without committing. -/
theorem c9_record_failure_propagates_witness :
    wData.scenes ≠ []
    ∧ (wrapper .record .json .json .strict "A.get_status" [] [] none
        (.error (.other 7)) wData).result = .error (.other 7)
    ∧ (wrapper .record .json .json .strict "A.get_status" [] [] none
        (.error (.other 7)) wData).data = wData
    ∧ (wrapper .record .json .json .strict "A.get_status" [] [] none
        (.error (.other 7)) wData).committed = false :=
  ⟨by simp [wData], (c9_record_failure_propagates .json .json .strict "A.get_status"
      [] [] none (.other 7) wData (by simp [wData])).1,
    (c9_record_failure_propagates .json .json .strict "A.get_status"
      [] [] none (.other 7) wData (by simp [wData])).2.1,
    (c9_record_failure_propagates .json .json .strict "A.get_status"
      [] [] none (.other 7) wData (by simp [wData])).2.2.1⟩

/-- C10: in either mode, an interception against a store with no scenes
raises `RuntimeError("No scenes: cannot memoize.")` without invoking
the real call; and `setup()` in record mode appends a scene, so a store
it has prepared is never empty. -/
theorem c10_no_scenes_raises
    (mode : MemoModes) (inS outS : Method) (pol : Policy) (memoName : String)
    (memoArgs : List PyValue) (kwargs : List (String × PyValue))
    (idxEnv : Option String) (fnRes : Except PyErr PyValue) (d : Data)
    (hempty : d.scenes = []) :
    (wrapper mode inS outS pol memoName memoArgs kwargs idxEnv fnRes d).result
      = .error (.runtimeError "No scenes: cannot memoize.")
    ∧ (wrapper mode inS outS pol memoName memoArgs kwargs idxEnv fnRes d).realCalled
      = false
    ∧ (∀ (env : List (String × String)) (ts : String) (d' : Data),
        (setup .record env ts d').scenes ≠ []) := by
  have hE : d.scenes.isEmpty = true := by rw [hempty]; rfl
  exact ⟨by simp [wrapper, hE], by simp [wrapper, hE],
    fun env ts d' => by simp [setup, recordCurrentEvent]⟩

/-- Witness for C10 at the empty store, in record mode. -/
theorem c10_no_scenes_raises_witness :
    (⟨[]⟩ : Data).scenes = []
    ∧ (wrapper .record .json .json .strict "A.get_status" [] [] none
        (.ok (.pystr "active")) ⟨[]⟩).result
      = .error (.runtimeError "No scenes: cannot memoize.")
    ∧ (wrapper .record .json .json .strict "A.get_status" [] [] none
        (.ok (.pystr "active")) ⟨[]⟩).realCalled = false :=
  ⟨rfl, (c10_no_scenes_raises .record .json .json .strict "A.get_status" [] [] none
      (.ok (.pystr "active")) ⟨[]⟩ rfl).1,
    (c10_no_scenes_raises .record .json .json .strict "A.get_status" [] [] none
      (.ok (.pystr "active")) ⟨[]⟩ rfl).2.1⟩
